import Mathlib

/-!
Shallow embedding of the vaillant-smart-server caching facade
(src/client/vaillant_client.py) and of the cooperative scheduling model of
src/app.py, together with theorems settling the specification claims.

Modelling conventions:
- datetimes are integer UTC timestamps in seconds (abbrev Time);
- Python dicts are association lists with in-place overwrite, preserving
  insertion order as Python dicts do;
- JSON-serializable Python values are the inductive type Value, with Python
  truthiness given by Value.truthy;
- vendor (myPyllant) responses are oracle data carried by a Vendor record;
  every network request issued to the vendor is recorded in a VendorCall log;
- fallible lookups return Option, and an uncaught Python exception is the
  PyResult.exn outcome.
-/

/-- Seconds-precision UTC timestamp (model of datetime in the source). -/
abbrev Time := Int

/-- JSON-serializable Python value: results, cached entries, vendor data. -/
inductive Value where
  | null
  | bool (b : Bool)
  | num (q : ℚ)
  | str (s : String)
  | arr (elems : List Value)
  | obj (fields : List (String × Value))

/-- Python truthiness of a Value: None, False, 0, empty string, empty list
and empty dict are falsy, everything else is truthy. -/
def Value.truthy : Value → Bool
  | .null => false
  | .bool b => b
  | .num q => q != 0
  | .str s => s != ""
  | .arr l => !l.isEmpty
  | .obj l => !l.isEmpty

/-- Whether the value is Python None. -/
def Value.isNull : Value → Bool
  | .null => true
  | _ => false

/-- Association-list lookup, the model of a Python dict read. -/
def lookupA {α : Type} : List (String × α) → String → Option α
  | [], _ => none
  | (k, v) :: rest, key => if k = key then some v else lookupA rest key

/-- Association-list write, the model of a Python dict assignment:
overwrite in place when the key exists, append otherwise. -/
def insertA {α : Type} : List (String × α) → String → α → List (String × α)
  | [], key, v => [(key, v)]
  | (k, w) :: rest, key, v =>
      if k = key then (key, v) :: rest else (k, w) :: insertA rest key v

/-- Field lookup inside an object value (used to tell result shapes apart). -/
def Value.lookupKey : Value → String → Option Value
  | .obj l, k => lookupA l k
  | _, _ => none

theorem lookupA_insertA_self {α : Type} (l : List (String × α)) (k : String) (v : α) :
    lookupA (insertA l k v) k = some v := by
  induction l with
  | nil => simp [insertA, lookupA]
  | cons p rest ih =>
      obtain ⟨k0, w⟩ := p
      by_cases h : k0 = k <;> simp [insertA, lookupA, h, ih]

theorem lookupA_insertA_other {α : Type} (l : List (String × α)) (k k0 : String) (v : α)
    (h : k ≠ k0) : lookupA (insertA l k v) k0 = lookupA l k0 := by
  induction l with
  | nil => simp [insertA, lookupA, h]
  | cons p rest ih =>
      obtain ⟨k1, w⟩ := p
      by_cases h1 : k1 = k
      · subst h1
        simp [insertA, lookupA, h]
      · by_cases h2 : k1 = k0 <;> simp [insertA, lookupA, h1, h2, ih, Ne.symm h]

/-- The two module-level cache dicts of vaillant_client.py:
CACHE maps keys to values, CACHE_TTL maps keys to expiry instants. -/
structure CacheState where
  CACHE : List (String × Value)
  CACHE_TTL : List (String × Time)

/-- Empty initial cache (module load state). -/
def emptyCache : CacheState := ⟨[], []⟩

/-- set_cache(key, value, ttl): CACHE[key] = value;
CACHE_TTL[key] = datetime.now(UTC) + ttl. -/
def set_cache (s : CacheState) (key : String) (value : Value) (ttl : Int)
    (now : Time) : CacheState :=
  { CACHE := insertA s.CACHE key value
    CACHE_TTL := insertA s.CACHE_TTL key (now + ttl) }

/-- get_from_cache(key): returns CACHE[key] when key is in CACHE and
CACHE_TTL[key] > now, else None. Reading CACHE_TTL on a key present only in
CACHE would raise KeyError in Python; that outcome is Except.error. -/
def get_from_cache (s : CacheState) (key : String) (now : Time) :
    Except Unit (Option Value) :=
  match lookupA s.CACHE key with
  | none => .ok none
  | some v =>
      match lookupA s.CACHE_TTL key with
      | none => .error ()
      | some expiry => if now < expiry then .ok (some v) else .ok none

/-- The CACHE_TIMES dict, in seconds: system_info 5 min, zone_info 30 min,
gas_consumption 4 h, water_pressure 5 min, zones 5 min, zone_flow_temp 5 min. -/
def CACHE_TIMES (k : String) : Int :=
  if k = "system_info" then 300
  else if k = "zone_info" then 1800
  else if k = "gas_consumption" then 14400
  else if k = "water_pressure" then 300
  else if k = "zones" then 300
  else if k = "zone_flow_temp" then 300
  else 0

/-- The vendor API session object: the only field the client code reads is
oauth_session_expires. -/
structure ApiSession where
  oauth_session_expires : Time

/-- One vendor network request, as issued by the client code. The
getDataByDevice entry records the start and end window passed to the vendor. -/
inductive VendorCall where
  | login
  | refreshToken
  | getSystems
  | getDataByDevice (startD endD : Time)
  | patchMode
  | setSetpoint
deriving DecidableEq

/-- A mutating (state-changing) vendor request: the heating-operation-mode
PATCH of update_zone_mode or the setpoint write of update_zone_temperature. -/
def VendorCall.isMutating : VendorCall → Bool
  | .patchMode => true
  | .setSetpoint => true
  | _ => false

/-- A monthly data bucket returned by get_data_by_device. -/
structure Bucket where
  value : ℚ

/-- One data series returned by get_data_by_device, with its operation mode,
energy type and bucket list. -/
structure DataSeries where
  operation_mode : String
  energy_type : String
  data : List Bucket

/-- A device of the vendor system; dataResponse is the oracle response the
vendor gives to the get_data_by_device query issued for it. -/
structure Device where
  device_type : String
  dataResponse : List DataSeries

/-- A heating zone as exposed by the vendor library. The telemetry fields are
opaque vendor values; current_circuit_flow_temperature is Value.null when the
circuit reports no flow temperature (Python None). -/
structure Zone where
  name : String
  current_room_temperature : Value
  desired_room_temperature_setpoint : Value
  operation_mode_heating : Value
  current_circuit_flow_temperature : Value
  zoneIdx : Int
  system_id : String

/-- A vendor system. The serialized field is the oracle output of the
reflective json.loads(json.dumps(system, default=serialize)) round trip
performed by get_system_info; the source treats that object graph as opaque,
so its JSON image is vendor data here. -/
structure Sys where
  zones : List Zone
  devices : List Device
  water_pressure : Value
  serialized : Value

/-- The vendor oracle: expiry instants granted by login and by token refresh,
the system list returned by get_systems, and whether the two mutating
requests succeed (with the exception text when they fail). -/
structure Vendor where
  login_expires : Time
  refresh_expires : Time
  systems : List Sys
  patchOk : Bool
  patchErr : String
  setpointOk : Bool
  setpointErr : String

/-- Full client module state: the global api session and the two cache dicts. -/
structure ClientState where
  api : Option ApiSession
  cache : CacheState

/-- ensure_authenticated(): if api is None, init_api() creates the session and
logs in; then, if oauth_session_expires <= now, refresh_token() is awaited.
Returns the new state and the vendor calls issued. -/
def ensure_authenticated (st : ClientState) (v : Vendor) (now : Time) :
    ClientState × List VendorCall :=
  let (st1, calls1) :=
    match st.api with
    | none => ({ st with api := some ⟨v.login_expires⟩ }, [VendorCall.login])
    | some _ => (st, [])
  match st1.api with
  | some s =>
      if s.oauth_session_expires ≤ now then
        ({ st1 with api := some ⟨v.refresh_expires⟩ },
          calls1 ++ [VendorCall.refreshToken])
      else (st1, calls1)
  | none => (st1, calls1)

/-- Outcome of a Python call: a returned value, or an uncaught exception. -/
inductive PyResult where
  | ok (v : Value)
  | exn

/-- Result shape of the miss path of a cached read operation: either a value
to be stored through set_cache and returned, or a value returned without
caching (the error results of the source are never cached). -/
inductive FetchOut where
  | cacheIt (r : Value) (calls : List VendorCall)
  | plain (r : Value) (calls : List VendorCall)

/-- The repeated source pattern "cached = get_from_cache(key); if cached:
return cached; ... fetch ...": on a truthy fresh entry return it with no
vendor call; otherwise run ensure_authenticated, evaluate the fetch body, and
apply set_cache exactly when the body caches its result. A KeyError from
get_from_cache propagates as an exception. -/
def cachedFetch (key : String) (ttl : Int) (fetch : Vendor → FetchOut)
    (st : ClientState) (v : Vendor) (now : Time) :
    PyResult × ClientState × List VendorCall :=
  let miss : PyResult × ClientState × List VendorCall :=
    let (st1, auth) := ensure_authenticated st v now
    match fetch v with
    | .cacheIt r cs =>
        (.ok r, { st1 with cache := set_cache st1.cache key r ttl now }, auth ++ cs)
    | .plain r cs => (.ok r, st1, auth ++ cs)
  match get_from_cache st.cache key now with
  | .error _ => (.exn, st, [])
  | .ok (some c) => if c.truthy then (.ok c, st, []) else miss
  | .ok none => miss

/-- Gregorian leap-year test, matching the calendar datetime implements. -/
def isLeap (y : Int) : Bool :=
  (y % 4 == 0 && y % 100 != 0) || y % 400 == 0

/-- 1 when year y is leap, else 0. -/
def leapDay (y : Int) : Int := if isLeap y then 1 else 0

/-- Length in days of month m (1-12) of year y; 0 outside that range. -/
def monthDays (y : Int) (m : Nat) : Int :=
  if m = 1 then 31
  else if m = 2 then (if isLeap y then 29 else 28)
  else if m = 3 then 31
  else if m = 4 then 30
  else if m = 5 then 31
  else if m = 6 then 30
  else if m = 7 then 31
  else if m = 8 then 31
  else if m = 9 then 30
  else if m = 10 then 31
  else if m = 11 then 30
  else if m = 12 then 31
  else 0

/-- Days of year y elapsed before the first day of month m (1-12). -/
def daysBefore (y : Int) (m : Nat) : Int :=
  if m = 1 then 0
  else if m = 2 then 31
  else if m = 3 then 59 + leapDay y
  else if m = 4 then 90 + leapDay y
  else if m = 5 then 120 + leapDay y
  else if m = 6 then 151 + leapDay y
  else if m = 7 then 181 + leapDay y
  else if m = 8 then 212 + leapDay y
  else if m = 9 then 243 + leapDay y
  else if m = 10 then 273 + leapDay y
  else if m = 11 then 304 + leapDay y
  else if m = 12 then 334 + leapDay y
  else 0

/-- Leap days among years 1..n. -/
def leaps (n : Nat) : Nat := n / 4 - n / 100 + n / 400

/-- Timestamp (in seconds) of the first instant of month m of year y, the
model of datetime(y, m, 1): whole days elapsed since the calendar origin
times 86400. Injective and monotone on valid (y >= 1, 1 <= m <= 12) dates, so
the timedelta arithmetic of the source maps to integer arithmetic. -/
def dtSec (y m : Int) : Int :=
  86400 * (365 * ((y - 1).toNat : Int) + (leaps (y - 1).toNat : Int)
    + daysBefore y m.toNat)

/-- The query window of get_gas_consumption: start_date = datetime(year,
month, 1); end_date = datetime(year + 1, 1, 1) - timedelta(seconds=1) if
month == 12 else datetime(year, month + 1, 1) - timedelta(seconds=1). -/
def gasWindow (month year : Int) : Int × Int :=
  (dtSec year month,
    (if month = 12 then dtSec (year + 1) 1 else dtSec year (month + 1)) - 1)

/-- Inner loops of get_gas_consumption over the data series of one device:
the first series with operation_mode DOMESTIC_HOT_WATER and energy_type
CONSUMED_PRIMARY_ENERGY whose bucket list is nonempty yields its first
bucket value; a matching series with no buckets is skipped (the for loop
body never runs), as is a non-matching series. -/
def firstBucketVal : List DataSeries → Option ℚ
  | [] => none
  | d :: rest =>
      if d.operation_mode = "DOMESTIC_HOT_WATER"
          ∧ d.energy_type = "CONSUMED_PRIMARY_ENERGY" then
        match d.data with
        | [] => firstBucketVal rest
        | b :: _ => some b.value
      else firstBucketVal rest

/-- Device loop of get_gas_consumption: each device of type BOILER triggers
one get_data_by_device request over the window; the loop stops at the first
bucket value found, otherwise continues with the remaining devices. -/
def gasDevices : List Device → Time → Time → Option ℚ × List VendorCall
  | [], _, _ => (none, [])
  | d :: rest, s, e =>
      if d.device_type = "BOILER" then
        match firstBucketVal d.dataResponse with
        | some q => (some q, [VendorCall.getDataByDevice s e])
        | none =>
            let (r, cs) := gasDevices rest s e
            (r, VendorCall.getDataByDevice s e :: cs)
      else gasDevices rest s e

/-- System loop of get_gas_consumption over the systems returned by
get_systems. -/
def gasSystems : List Sys → Time → Time → Option ℚ × List VendorCall
  | [], _, _ => (none, [])
  | s :: rest, a, b =>
      match gasDevices s.devices a b with
      | (some q, cs) => (some q, cs)
      | (none, cs) =>
          let (r, cs2) := gasSystems rest a b
          (r, cs ++ cs2)

/-- The zone search shared by get_zone_info, get_zone_flow_temperature,
update_zone_mode and update_zone_temperature: iterate the systems and use
the first one for which 0 <= zone_index < len(system.zones), returning that
zone; None models falling off the loop into the Zone-not-found return. -/
def findZone : List Sys → Int → Option Zone
  | [], _ => none
  | s :: rest, idx =>
      if h : 0 ≤ idx ∧ idx < (s.zones.length : Int) then
        some (s.zones.get ⟨idx.toNat, by omega⟩)
      else findZone rest idx

/-- The literal error dict returned on a failed zone bounds check. -/
def zoneNotFoundV : Value := Value.obj [("error", Value.str "Zone not found")]

/-- The literal error dict returned on an unrecognized mode string. -/
def invalidModeV : Value := Value.obj [("error", Value.str "Invalid mode")]

/-- Miss body of get_gas_consumption(month, year): walk systems, devices of
type BOILER, matching data series; on the first bucket found cache and
return the consumption dict with value / 10000, else return the No-data
error without caching. get_systems is always issued; every traversed BOILER
device issues one windowed data request. -/
def fetchGas (month year : Int) (v : Vendor) : FetchOut :=
  let w := gasWindow month year
  match gasSystems v.systems w.1 w.2 with
  | (some q, cs) =>
      .cacheIt (Value.obj [("consumption_m3", Value.num (q / 10000))])
        (VendorCall.getSystems :: cs)
  | (none, cs) =>
      .plain (Value.obj [("error", Value.str "No data found")])
        (VendorCall.getSystems :: cs)

/-- Miss body of get_water_pressure: the first system yields the pressure
dict (cached); an empty system list yields the No-data error. -/
def fetchPressure (v : Vendor) : FetchOut :=
  match v.systems with
  | [] => .plain (Value.obj [("error", Value.str "No data found")])
      [VendorCall.getSystems]
  | s :: _ =>
      .cacheIt (Value.obj [("pressure", s.water_pressure)])
        [VendorCall.getSystems]

/-- Miss body of get_zones: enumerate the zones of the first system into
index/name dicts. -/
def fetchZones (v : Vendor) : FetchOut :=
  match v.systems with
  | [] => .plain (Value.obj [("error", Value.str "No data found")])
      [VendorCall.getSystems]
  | s :: _ =>
      .cacheIt (Value.obj [("zones", Value.arr (s.zones.enum.map fun p =>
          Value.obj [("index", Value.num (p.1 : ℚ)),
            ("name", Value.str p.2.name)]))])
        [VendorCall.getSystems]

/-- Miss body of get_zone_info(zone_index): bounds-checked zone lookup; in
range caches the five-field info dict, out of range returns Zone-not-found
uncached. -/
def fetchZoneInfo (zone_index : Int) (v : Vendor) : FetchOut :=
  match findZone v.systems zone_index with
  | some z =>
      .cacheIt (Value.obj [("index", Value.num (zone_index : ℚ)),
          ("name", Value.str z.name),
          ("current_temperature", z.current_room_temperature),
          ("desired_temperature", z.desired_room_temperature_setpoint),
          ("heating_state", z.operation_mode_heating)])
        [VendorCall.getSystems]
  | none => .plain zoneNotFoundV [VendorCall.getSystems]

/-- Miss body of get_zone_flow_temperature(index): in range with a non-None
flow temperature caches the flow dict; in range with None returns the
not-available error uncached; out of range returns Zone-not-found. -/
def fetchFlow (idx : Int) (v : Vendor) : FetchOut :=
  match findZone v.systems idx with
  | some z =>
      if z.current_circuit_flow_temperature.isNull then
        .plain (Value.obj
            [("error", Value.str "Flow temperature not available for this zone")])
          [VendorCall.getSystems]
      else
        .cacheIt (Value.obj
            [("flow_temperature", z.current_circuit_flow_temperature)])
          [VendorCall.getSystems]
  | none => .plain zoneNotFoundV [VendorCall.getSystems]

/-- Miss body of get_system_info: serialize the first system (oracle JSON
image) and cache it; an empty system list yields the No-system error. -/
def fetchSysInfo (v : Vendor) : FetchOut :=
  match v.systems with
  | [] => .plain (Value.obj [("error", Value.str "No system found")])
      [VendorCall.getSystems]
  | s :: _ => .cacheIt s.serialized [VendorCall.getSystems]

/-- get_gas_consumption(month, year), cache key gas_consumption_year_month. -/
def get_gas_consumption (month year : Int) (st : ClientState) (v : Vendor)
    (now : Time) : PyResult × ClientState × List VendorCall :=
  cachedFetch ("gas_consumption_" ++ toString year ++ "_" ++ toString month)
    (CACHE_TIMES "gas_consumption") (fetchGas month year) st v now

/-- get_water_pressure(), cache key water_pressure. -/
def get_water_pressure (st : ClientState) (v : Vendor) (now : Time) :
    PyResult × ClientState × List VendorCall :=
  cachedFetch "water_pressure" (CACHE_TIMES "water_pressure") fetchPressure
    st v now

/-- get_zones(), cache key zones. -/
def get_zones (st : ClientState) (v : Vendor) (now : Time) :
    PyResult × ClientState × List VendorCall :=
  cachedFetch "zones" (CACHE_TIMES "zones") fetchZones st v now

/-- get_zone_info(zone_index), cache key zone_info_index. -/
def get_zone_info (zone_index : Int) (st : ClientState) (v : Vendor)
    (now : Time) : PyResult × ClientState × List VendorCall :=
  cachedFetch ("zone_info_" ++ toString zone_index) (CACHE_TIMES "zone_info")
    (fetchZoneInfo zone_index) st v now

/-- get_zone_flow_temperature(index), cache key zone_flow_temp_index. -/
def get_zone_flow_temperature (idx : Int) (st : ClientState) (v : Vendor)
    (now : Time) : PyResult × ClientState × List VendorCall :=
  cachedFetch ("zone_flow_temp_" ++ toString idx) (CACHE_TIMES "zone_flow_temp")
    (fetchFlow idx) st v now

/-- get_system_info(), cache key system_info. -/
def get_system_info (st : ClientState) (v : Vendor) (now : Time) :
    PyResult × ClientState × List VendorCall :=
  cachedFetch "system_info" (CACHE_TIMES "system_info") fetchSysInfo st v now

/-- The six read operations of the facade, with their inputs. -/
inductive ReadOp where
  | gas (month year : Int)
  | pressure
  | zones
  | zoneInfo (i : Int)
  | flowTemp (i : Int)
  | sysInfo

/-- Dispatcher over the read operations (used to quantify claims over all
six at once). -/
def runRead (op : ReadOp) (st : ClientState) (v : Vendor) (now : Time) :
    PyResult × ClientState × List VendorCall :=
  match op with
  | .gas m y => get_gas_consumption m y st v now
  | .pressure => get_water_pressure st v now
  | .zones => get_zones st v now
  | .zoneInfo i => get_zone_info i st v now
  | .flowTemp i => get_zone_flow_temperature i st v now
  | .sysInfo => get_system_info st v now

/-- Cache key used by each read operation. -/
def readKey : ReadOp → String
  | .gas m y => "gas_consumption_" ++ toString y ++ "_" ++ toString m
  | .pressure => "water_pressure"
  | .zones => "zones"
  | .zoneInfo i => "zone_info_" ++ toString i
  | .flowTemp i => "zone_flow_temp_" ++ toString i
  | .sysInfo => "system_info"

/-- TTL used by each read operation. -/
def readTTL : ReadOp → Int
  | .gas _ _ => CACHE_TIMES "gas_consumption"
  | .pressure => CACHE_TIMES "water_pressure"
  | .zones => CACHE_TIMES "zones"
  | .zoneInfo _ => CACHE_TIMES "zone_info"
  | .flowTemp _ => CACHE_TIMES "zone_flow_temp"
  | .sysInfo => CACHE_TIMES "system_info"

/-- Miss body of each read operation. -/
def readFetch : ReadOp → Vendor → FetchOut
  | .gas m y => fetchGas m y
  | .pressure => fetchPressure
  | .zones => fetchZones
  | .zoneInfo i => fetchZoneInfo i
  | .flowTemp i => fetchFlow i
  | .sysInfo => fetchSysInfo

theorem runRead_eq_cachedFetch (op : ReadOp) (st : ClientState) (v : Vendor)
    (now : Time) :
    runRead op st v now
      = cachedFetch (readKey op) (readTTL op) (readFetch op) st v now := by
  cases op <;> rfl

/-- The mode_map dict of update_zone_mode applied to mode.lower(). -/
inductive ZoneOperatingMode where
  | MANUAL
  | OFF
  | TIME_CONTROLLED
deriving DecidableEq

/-- Python str.lower() for the ASCII mode strings involved. -/
def strLower (s : String) : String := String.mk (s.data.map Char.toLower)

/-- mode_map.get(mode.lower()): the three recognized keys, None otherwise. -/
def mode_map (s : String) : Option ZoneOperatingMode :=
  if s = "manual" then some .MANUAL
  else if s = "off" then some .OFF
  else if s = "time_controlled" then some .TIME_CONTROLLED
  else none

/-- update_zone_mode(zone_index, mode): authenticate, fetch the systems, find
the first system whose zone list contains zone_index; map mode.lower()
through mode_map, returning the Invalid-mode error when unrecognized; else
issue the heating-operation-mode PATCH, converting a failure into an error
dict. Falling through the system loop returns Zone-not-found. The cache is
never touched. -/
def update_zone_mode (zone_index : Int) (mode : String) (st : ClientState)
    (v : Vendor) (now : Time) : PyResult × ClientState × List VendorCall :=
  let (st1, auth) := ensure_authenticated st v now
  match findZone v.systems zone_index with
  | some z =>
      match mode_map (strLower mode) with
      | none => (.ok invalidModeV, st1, auth ++ [VendorCall.getSystems])
      | some _ =>
          if v.patchOk then
            (.ok (Value.obj [("message",
                Value.str ("Zone " ++ z.name ++ " mode set to " ++ mode))]),
              st1, auth ++ [VendorCall.getSystems, VendorCall.patchMode])
          else
            (.ok (Value.obj [("error",
                Value.str ("Failed to update mode for zone " ++ z.name
                  ++ ": " ++ v.patchErr))]),
              st1, auth ++ [VendorCall.getSystems, VendorCall.patchMode])
  | none => (.ok zoneNotFoundV, st1, auth ++ [VendorCall.getSystems])

/-- update_zone_temperature(zone_index, temperature): authenticate, fetch the
systems, bounds-check; in range issue set_manual_mode_setpoint, converting a
failure into an error dict; out of range return Zone-not-found. The cache is
never touched. -/
def update_zone_temperature (zone_index : Int) (temperature : ℚ)
    (st : ClientState) (v : Vendor) (now : Time) :
    PyResult × ClientState × List VendorCall :=
  let (st1, auth) := ensure_authenticated st v now
  match findZone v.systems zone_index with
  | some z =>
      if v.setpointOk then
        (.ok (Value.obj [("message",
            Value.str ("Temperature for zone " ++ z.name ++ " set to "
              ++ toString temperature ++ "°C"))]),
          st1, auth ++ [VendorCall.getSystems, VendorCall.setSetpoint])
      else
        (.ok (Value.obj [("error",
            Value.str ("Failed to set temperature for zone " ++ z.name
              ++ ": " ++ v.setpointErr))]),
          st1, auth ++ [VendorCall.getSystems, VendorCall.setSetpoint])
  | none => (.ok zoneNotFoundV, st1, auth ++ [VendorCall.getSystems])

theorem ensure_authenticated_cache (st : ClientState) (v : Vendor) (now : Time) :
    (ensure_authenticated st v now).1.cache = st.cache := by
  unfold ensure_authenticated
  cases st.api <;> dsimp only [] <;> split <;> first | rfl | (split <;> rfl)

theorem ensure_authenticated_calls (st : ClientState) (v : Vendor) (now : Time) :
    ∀ c ∈ (ensure_authenticated st v now).2,
      c = VendorCall.login ∨ c = VendorCall.refreshToken := by
  unfold ensure_authenticated
  cases st.api <;> dsimp only [] <;> split <;> (try split) <;> intro c hc <;> simp at hc <;> aesop

/-- A fresh truthy cache entry short-circuits cachedFetch: the stored value
is returned, the state is untouched, no vendor call is issued. -/
theorem cachedFetch_hit (key : String) (ttl : Int) (fetch : Vendor → FetchOut)
    (st : ClientState) (v : Vendor) (now : Time) (w : Value) (e : Time)
    (hv : lookupA st.cache.CACHE key = some w)
    (he : lookupA st.cache.CACHE_TTL key = some e)
    (hfresh : now < e) (htru : w.truthy = true) :
    cachedFetch key ttl fetch st v now = (.ok w, st, []) := by
  unfold cachedFetch get_from_cache
  simp [hv, he, hfresh, htru]

/-- The cache misses for a key: absent, expired, or present-but-falsy (the
source tests truthiness, not presence). False when the lookup would raise. -/
def cacheMissB (s : CacheState) (key : String) (now : Time) : Bool :=
  match get_from_cache s key now with
  | .ok (some c) => !c.truthy
  | .ok none => true
  | .error _ => false

/-- On a cache miss, cachedFetch authenticates and runs the fetch body,
caching the result exactly in the cacheIt case. -/
theorem cachedFetch_miss (key : String) (ttl : Int) (fetch : Vendor → FetchOut)
    (st : ClientState) (v : Vendor) (now : Time)
    (hmiss : cacheMissB st.cache key now = true) :
    cachedFetch key ttl fetch st v now
      = (let (st1, auth) := ensure_authenticated st v now
         match fetch v with
         | .cacheIt r cs =>
             (.ok r, { st1 with cache := set_cache st1.cache key r ttl now },
               auth ++ cs)
         | .plain r cs => (.ok r, st1, auth ++ cs)) := by
  unfold cachedFetch
  unfold cacheMissB at hmiss
  cases hg : get_from_cache st.cache key now with
  | error u => simp [hg] at hmiss
  | ok o =>
      cases o with
      | none => simp [hg]
      | some c =>
          simp [hg] at hmiss ⊢
          simp [hmiss]

/-- C2: get_from_cache returns the stored value exactly when the current time
is strictly before the stored expiry; at or after the expiry, or for an
absent key, it behaves as absent (returns None) and never yields the stale
stored value. -/
theorem get_from_cache_fresh_iff (s : CacheState) (key : String) (now : Time) :
    (∀ v e, lookupA s.CACHE key = some v → lookupA s.CACHE_TTL key = some e →
      ((get_from_cache s key now = .ok (some v) ↔ now < e)
        ∧ (e ≤ now → get_from_cache s key now = .ok none)))
    ∧ (lookupA s.CACHE key = none → get_from_cache s key now = .ok none) := by
  refine ⟨fun v e hv he => ?_, fun h => ?_⟩
  · unfold get_from_cache
    rw [hv, he]
    by_cases h : now < e <;> simp [h]
  · unfold get_from_cache
    rw [h]

theorem get_from_cache_fresh_iff_witness :
    (get_from_cache ⟨[("k", Value.num 7)], [("k", 100)]⟩ "k" 50
        = .ok (some (Value.num 7)))
      ∧ get_from_cache ⟨[("k", Value.num 7)], [("k", 100)]⟩ "k" 100 = .ok none := by
  have h := get_from_cache_fresh_iff ⟨[("k", Value.num 7)], [("k", 100)]⟩ "k" 50
  have h2 := get_from_cache_fresh_iff ⟨[("k", Value.num 7)], [("k", 100)]⟩ "k" 100
  exact ⟨((h.1 (Value.num 7) 100 rfl rfl).1).mpr (by norm_num),
    (h2.1 (Value.num 7) 100 rfl rfl).2 (by norm_num)⟩

/-- One cache operation: a set_cache write or a get_from_cache read (which
never modifies the two dicts). -/
inductive CacheOp where
  | set (key : String) (value : Value) (ttl : Int) (now : Time)
  | get (key : String) (now : Time)

/-- Effect of one cache operation on the two dicts. -/
def applyOp (s : CacheState) : CacheOp → CacheState
  | .set k v ttl now => set_cache s k v ttl now
  | .get _ _ => s

/-- Effect of a sequence of cache operations, first op first. -/
def applyOps (s : CacheState) : List CacheOp → CacheState
  | [] => s
  | op :: rest => applyOps (applyOp s op) rest

/-- Every key of CACHE also has an expiry in CACHE_TTL. -/
def ttlCovers (s : CacheState) : Prop :=
  ∀ k, (lookupA s.CACHE k).isSome → (lookupA s.CACHE_TTL k).isSome

theorem ttlCovers_set (s : CacheState) (k : String) (v : Value) (ttl : Int)
    (now : Time) (h : ttlCovers s) : ttlCovers (set_cache s k v ttl now) := by
  intro k0
  unfold set_cache
  by_cases hk : k = k0
  · subst hk
    simp [lookupA_insertA_self]
  · simp only [lookupA_insertA_other _ _ _ _ hk]
    exact h k0

theorem ttlCovers_applyOps (ops : List CacheOp) (s : CacheState)
    (h : ttlCovers s) : ttlCovers (applyOps s ops) := by
  induction ops generalizing s with
  | nil => exact h
  | cons op rest ih =>
      cases op with
      | set k v ttl now => exact ih _ (ttlCovers_set s k v ttl now h)
      | get k now => exact ih _ h

/-- C10: from the empty cache, any sequence of set_cache and get_from_cache
operations keeps the two dicts synchronized: every key of CACHE has an
expiry entry in CACHE_TTL, so the CACHE_TTL[key] read inside get_from_cache
can never raise KeyError. -/
theorem cache_maps_synchronized (ops : List CacheOp) (k : String) (now : Time) :
    ((lookupA (applyOps emptyCache ops).CACHE k).isSome →
      (lookupA (applyOps emptyCache ops).CACHE_TTL k).isSome)
    ∧ get_from_cache (applyOps emptyCache ops) k now ≠ .error () := by
  have hcov : ttlCovers (applyOps emptyCache ops) :=
    ttlCovers_applyOps ops emptyCache (by intro k0; simp [emptyCache, lookupA])
  refine ⟨hcov k, ?_⟩
  unfold get_from_cache
  cases hv : lookupA (applyOps emptyCache ops).CACHE k with
  | none => simp
  | some v =>
      have := hcov k (by simp [hv])
      cases he : lookupA (applyOps emptyCache ops).CACHE_TTL k with
      | none => simp [he] at this
      | some e => simp; split <;> simp

theorem cache_maps_synchronized_witness :
    ((lookupA (applyOps emptyCache
        [CacheOp.set "a" (Value.num 1) 300 0, CacheOp.get "a" 10]).CACHE_TTL
      "a").isSome)
    ∧ get_from_cache (applyOps emptyCache
        [CacheOp.set "a" (Value.num 1) 300 0, CacheOp.get "a" 10]) "a" 10
      ≠ .error () := by
  have h := cache_maps_synchronized
    [CacheOp.set "a" (Value.num 1) 300 0, CacheOp.get "a" 10] "a" 10
  exact ⟨h.1 (by rfl), h.2⟩

/-- Stepping one month forward advances the first-instant timestamp by the
length of that month. -/
theorem dtSec_succ_month (Y m : Int) (hm1 : 1 ≤ m) (hm : m ≤ 11) :
    dtSec Y (m + 1) = dtSec Y m + 86400 * monthDays Y m.toNat := by
  interval_cases m <;> cases hL : isLeap Y <;>
    simp [dtSec, daysBefore, monthDays, leapDay, hL] <;> ring

set_option maxHeartbeats 1000000 in
/-- Leap-day count, stepping from year Y-1 to year Y. -/
theorem leaps_step (Y : Int) (hY : 1 ≤ Y) :
    (leaps Y.toNat : Int) = (leaps (Y - 1).toNat : Int) + leapDay Y := by
  by_cases h4 : Y % 4 = 0 <;> by_cases h100 : Y % 100 = 0 <;>
    by_cases h400 : Y % 400 = 0 <;>
    simp [leapDay, isLeap, leaps, h4, h100, h400] <;> omega

/-- Stepping from December to January of the next year advances the
first-instant timestamp by 31 days. -/
theorem dtSec_jan (Y : Int) (hY : 1 ≤ Y) :
    dtSec (Y + 1) 1 = dtSec Y 12 + 86400 * 31 := by
  have hs := leaps_step Y hY
  have hn : (Y - 1).toNat = Y.toNat - 1 := by omega
  rw [hn] at hs
  simp [dtSec, daysBefore]
  omega

/-- C4: the gas-consumption query window starts at the first instant of the
requested month; for December it ends one second before the first instant of
January of the following year, for any other month one second before the
first instant of the next month; at second granularity the window spans
exactly the length of the calendar month. -/
theorem gas_window_boundaries (Y m : Int) (hY : 1 ≤ Y) (hm1 : 1 ≤ m)
    (hm12 : m ≤ 12) :
    (gasWindow m Y).1 = dtSec Y m
    ∧ (gasWindow 12 Y).2 = dtSec (Y + 1) 1 - 1
    ∧ (m < 12 → (gasWindow m Y).2 = dtSec Y (m + 1) - 1)
    ∧ (gasWindow m Y).2 + 1 - (gasWindow m Y).1
        = 86400 * monthDays Y m.toNat := by
  refine ⟨rfl, by simp [gasWindow], fun hlt => by simp [gasWindow, Int.ne_of_lt hlt], ?_⟩
  rcases eq_or_lt_of_le hm12 with h12 | hlt
  · subst h12
    have hj := dtSec_jan Y hY
    simp [gasWindow, monthDays]
    omega
  · have hstep := dtSec_succ_month Y m hm1 (by omega)
    have hne : m ≠ 12 := by omega
    simp [gasWindow, hne]
    omega

theorem gas_window_boundaries_witness :
    (gasWindow 12 2023).1 = dtSec 2023 12
    ∧ (gasWindow 12 2023).2 = dtSec 2024 1 - 1
    ∧ (gasWindow 12 2023).2 + 1 - (gasWindow 12 2023).1 = 86400 * 31 := by
  have h := gas_window_boundaries 2023 12 (by norm_num) (by norm_num) (by norm_num)
  refine ⟨h.1, ?_, ?_⟩
  · have h2 := h.2.1
    norm_num at h2 ⊢
    exact h2
  · have h4 := h.2.2.2
    simpa [monthDays] using h4

theorem ensure_authenticated_noop (st : ClientState) (v : Vendor) (now : Time)
    (s : ApiSession) (hs : st.api = some s)
    (hfresh : now < s.oauth_session_expires) :
    ensure_authenticated st v now = (st, []) := by
  obtain ⟨api0, cache0⟩ := st
  simp only [] at hs
  subst hs
  unfold ensure_authenticated
  simp [not_le.mpr hfresh]

/-- C8: ensure_authenticated creates and logs in a session when none exists;
with an existing session it refreshes the token exactly when the expiry is at
or before the current time, and is a vendor-silent no-op when the expiry is
strictly later; repeated calls with a still-valid token are idempotent. -/
theorem ensure_authenticated_spec (st : ClientState) (v : Vendor) (now : Time) :
    (st.api = none →
      ((ensure_authenticated st v now).1.api.isSome
        ∧ (ensure_authenticated st v now).2.head? = some VendorCall.login))
    ∧ (∀ s, st.api = some s → s.oauth_session_expires ≤ now →
        ensure_authenticated st v now
          = ({ st with api := some ⟨v.refresh_expires⟩ },
              [VendorCall.refreshToken]))
    ∧ (∀ s, st.api = some s → now < s.oauth_session_expires →
        ensure_authenticated st v now = (st, []))
    ∧ (∀ s, st.api = some s → now < s.oauth_session_expires →
        ensure_authenticated (ensure_authenticated st v now).1 v now
          = (st, [])) := by
  refine ⟨fun h => ?_, fun s hs hexp => ?_, fun s hs hfresh => ?_,
    fun s hs hfresh => ?_⟩
  · obtain ⟨api0, cache0⟩ := st
    simp only [] at h
    subst h
    unfold ensure_authenticated
    dsimp only []
    split <;> simp
  · obtain ⟨api0, cache0⟩ := st
    simp only [] at hs
    subst hs
    unfold ensure_authenticated
    simp [hexp]
  · exact ensure_authenticated_noop st v now s hs hfresh
  · rw [ensure_authenticated_noop st v now s hs hfresh]
    exact ensure_authenticated_noop st v now s hs hfresh

theorem ensure_authenticated_spec_witness :
    (ensure_authenticated ⟨none, emptyCache⟩
        ⟨500, 900, [], true, "", true, ""⟩ 0).2.head? = some VendorCall.login
    ∧ ensure_authenticated ⟨some ⟨100⟩, emptyCache⟩
        ⟨500, 900, [], true, "", true, ""⟩ 100
        = (⟨some ⟨900⟩, emptyCache⟩, [VendorCall.refreshToken])
    ∧ ensure_authenticated ⟨some ⟨100⟩, emptyCache⟩
        ⟨500, 900, [], true, "", true, ""⟩ 50
        = (⟨some ⟨100⟩, emptyCache⟩, []) := by
  refine ⟨(((ensure_authenticated_spec ⟨none, emptyCache⟩
      ⟨500, 900, [], true, "", true, ""⟩ 0).1) rfl).2, ?_, ?_⟩
  · exact (ensure_authenticated_spec ⟨some ⟨100⟩, emptyCache⟩
      ⟨500, 900, [], true, "", true, ""⟩ 100).2.1 ⟨100⟩ rfl (by norm_num)
  · exact (ensure_authenticated_spec ⟨some ⟨100⟩, emptyCache⟩
      ⟨500, 900, [], true, "", true, ""⟩ 50).2.2.1 ⟨100⟩ rfl (by norm_num)

theorem cachedFetch_miss_cacheIt (key : String) (ttl : Int)
    (fetch : Vendor → FetchOut) (st : ClientState) (v : Vendor) (now : Time)
    (r : Value) (cs : List VendorCall)
    (hmiss : cacheMissB st.cache key now = true)
    (hf : fetch v = .cacheIt r cs) :
    cachedFetch key ttl fetch st v now
      = (.ok r,
          { (ensure_authenticated st v now).1 with
              cache := set_cache st.cache key r ttl now },
          (ensure_authenticated st v now).2 ++ cs) := by
  rw [cachedFetch_miss key ttl fetch st v now hmiss]
  rcases hE : ensure_authenticated st v now with ⟨st1, auth⟩
  have hc : st1.cache = st.cache := by
    have h0 := ensure_authenticated_cache st v now
    rw [hE] at h0
    exact h0
  dsimp only []
  rw [hf, hc]

theorem cachedFetch_miss_plain (key : String) (ttl : Int)
    (fetch : Vendor → FetchOut) (st : ClientState) (v : Vendor) (now : Time)
    (r : Value) (cs : List VendorCall)
    (hmiss : cacheMissB st.cache key now = true)
    (hf : fetch v = .plain r cs) :
    cachedFetch key ttl fetch st v now
      = (.ok r, (ensure_authenticated st v now).1,
          (ensure_authenticated st v now).2 ++ cs) := by
  rw [cachedFetch_miss key ttl fetch st v now hmiss]
  rcases hE : ensure_authenticated st v now with ⟨st1, auth⟩
  dsimp only []
  rw [hf]

/-- C6: on a cache miss, when the traversal of systems, BOILER devices and
matching data series finds a first bucket with raw value q,
get_gas_consumption returns the consumption dict whose consumption_m3 field
is q divided by exactly 10000. -/
theorem gas_consumption_first_bucket (month year : Int) (st : ClientState)
    (v : Vendor) (now : Time) (q : ℚ) (cs : List VendorCall)
    (hmiss : cacheMissB st.cache
      ("gas_consumption_" ++ toString year ++ "_" ++ toString month) now = true)
    (hq : gasSystems v.systems (gasWindow month year).1 (gasWindow month year).2
      = (some q, cs)) :
    (get_gas_consumption month year st v now).1
      = .ok (Value.obj [("consumption_m3", Value.num (q / 10000))]) := by
  have hf : fetchGas month year v
      = .cacheIt (Value.obj [("consumption_m3", Value.num (q / 10000))])
          (VendorCall.getSystems :: cs) := by
    simp only [fetchGas]
    rw [hq]
  unfold get_gas_consumption
  rw [cachedFetch_miss_cacheIt _ _ _ _ _ _ _ _ hmiss hf]

theorem gas_consumption_first_bucket_witness :
    (get_gas_consumption 5 2024 ⟨some ⟨1000⟩, emptyCache⟩
        ⟨500, 900,
          [⟨[], [⟨"BOILER",
            [⟨"DOMESTIC_HOT_WATER", "CONSUMED_PRIMARY_ENERGY", [⟨12345⟩]⟩]⟩],
            Value.null, Value.null⟩],
          true, "", true, ""⟩ 0).1
      = .ok (Value.obj [("consumption_m3", Value.num 1.2345)]) := by
  have h := gas_consumption_first_bucket 5 2024 ⟨some ⟨1000⟩, emptyCache⟩
    ⟨500, 900,
      [⟨[], [⟨"BOILER",
        [⟨"DOMESTIC_HOT_WATER", "CONSUMED_PRIMARY_ENERGY", [⟨12345⟩]⟩]⟩],
        Value.null, Value.null⟩],
      true, "", true, ""⟩ 0 12345
    [VendorCall.getDataByDevice (gasWindow 5 2024).1 (gasWindow 5 2024).2]
    rfl rfl
  rw [show (12345 : ℚ) / 10000 = 1.2345 by norm_num] at h
  exact h

theorem get_from_cache_ok_some (s : CacheState) (key : String) (now : Time)
    (c : Value) (h : get_from_cache s key now = .ok (some c)) :
    lookupA s.CACHE key = some c
      ∧ ∃ e, lookupA s.CACHE_TTL key = some e ∧ now < e := by
  unfold get_from_cache at h
  split at h
  · simp at h
  · rename_i c0 hv
    split at h
    · simp at h
    · rename_i e he
      split at h
      · rename_i hlt
        simp only [Except.ok.injEq, Option.some.injEq] at h
        subst h
        exact ⟨hv, e, he, hlt⟩
      · simp at h

theorem get_from_cache_ok_none (s : CacheState) (key : String) (now : Time)
    (h : get_from_cache s key now = .ok none) :
    lookupA s.CACHE key = none
      ∨ ∃ c e, lookupA s.CACHE key = some c
          ∧ lookupA s.CACHE_TTL key = some e ∧ e ≤ now := by
  unfold get_from_cache at h
  split at h
  · rename_i hv
    exact Or.inl hv
  · rename_i c0 hv
    split at h
    · simp at h
    · rename_i e he
      split at h
      · simp at h
      · rename_i hlt
        exact Or.inr ⟨c0, e, hv, he, not_lt.mp hlt⟩

/-- C3 (amended): if a read operation returns r and afterwards its cache key
holds a truthy value w that is still fresh at a later time t2, then w is r
itself, and calling the same operation again at t2 issues no vendor call,
leaves the state untouched, and returns exactly r. The five shaped read
results are nonempty dicts, hence always truthy; a system_info result
serializing to an empty (falsy) object escapes this guarantee and is
re-fetched. -/
theorem read_twice_within_ttl (op : ReadOp) (st st1 : ClientState) (v : Vendor)
    (t1 t2 : Time) (r w : Value) (c1 : List VendorCall) (e : Time)
    (h1 : runRead op st v t1 = (.ok r, st1, c1))
    (hw : lookupA st1.cache.CACHE (readKey op) = some w)
    (he : lookupA st1.cache.CACHE_TTL (readKey op) = some e)
    (htru : w.truthy = true)
    (ht : t1 ≤ t2) (hfresh : t2 < e) :
    w = r ∧ runRead op st1 v t2 = (.ok r, st1, []) := by
  have hcache := ensure_authenticated_cache st v t1
  have hwr : w = r := by
    rw [runRead_eq_cachedFetch] at h1
    unfold cachedFetch at h1
    dsimp only [] at h1
    split at h1
    · simp at h1
    · rename_i c hg
      split at h1
      · rename_i htc
        simp only [Prod.mk.injEq, PyResult.ok.injEq] at h1
        obtain ⟨hrc, hst, _⟩ := h1
        obtain ⟨hvc, e0, he0, hlt0⟩ := get_from_cache_ok_some _ _ _ _ hg
        rw [← hst] at hw
        rw [hw] at hvc
        simp only [Option.some.injEq] at hvc
        rw [hvc, hrc]
      · rename_i htc
        split at h1
        · rename_i r0 cs0 hfv
          simp only [Prod.mk.injEq, PyResult.ok.injEq] at h1
          obtain ⟨hr0, hst, _⟩ := h1
          have hc1 := congrArg ClientState.cache hst
          dsimp only [] at hc1
          rw [hcache] at hc1
          rw [← hc1] at hw
          rw [set_cache] at hw
          simp only [lookupA_insertA_self, Option.some.injEq] at hw
          rw [← hw]
          exact hr0
        · rename_i r0 cs0 hfv
          simp only [Prod.mk.injEq, PyResult.ok.injEq] at h1
          obtain ⟨hr0, hst, _⟩ := h1
          have hc1 := congrArg ClientState.cache hst
          rw [hcache] at hc1
          obtain ⟨hvc, e0, he0, hlt0⟩ := get_from_cache_ok_some _ _ _ _ hg
          rw [← hc1] at hw
          rw [hw] at hvc
          simp only [Option.some.injEq] at hvc
          rw [← hvc] at htc
          exact absurd htru htc
    · rename_i hg
      split at h1
      · rename_i r0 cs0 hfv
        simp only [Prod.mk.injEq, PyResult.ok.injEq] at h1
        obtain ⟨hr0, hst, _⟩ := h1
        have hc1 := congrArg ClientState.cache hst
        dsimp only [] at hc1
        rw [hcache] at hc1
        rw [← hc1] at hw
        rw [set_cache] at hw
        simp only [lookupA_insertA_self, Option.some.injEq] at hw
        rw [← hw]
        exact hr0
      · rename_i r0 cs0 hfv
        simp only [Prod.mk.injEq, PyResult.ok.injEq] at h1
        obtain ⟨hr0, hst, _⟩ := h1
        have hc1 := congrArg ClientState.cache hst
        rw [hcache] at hc1
        rcases get_from_cache_ok_none _ _ _ hg with habs | ⟨c0, e0, hc0, he0, hexp⟩
        · rw [← hc1] at hw
          rw [habs] at hw
          cases hw
        · rw [← hc1] at hw he
          rw [hw] at hc0
          rw [he] at he0
          simp only [Option.some.injEq] at he0
          exfalso
          exact absurd hfresh (not_lt.mpr (by rw [he0]; exact hexp.trans ht))
  refine ⟨hwr, ?_⟩
  rw [runRead_eq_cachedFetch]
  rw [cachedFetch_hit (readKey op) (readTTL op) (readFetch op) st1 v t2 w e hw he hfresh htru]
  rw [hwr]

theorem read_twice_within_ttl_witness :
    runRead .pressure
        ⟨some ⟨1000⟩,
          ⟨[("water_pressure", Value.obj [("pressure", Value.num 2)])],
            [("water_pressure", 300)]⟩⟩
        ⟨500, 900, [⟨[], [], Value.num 2, Value.null⟩], true, "", true, ""⟩ 10
      = (.ok (Value.obj [("pressure", Value.num 2)]),
          ⟨some ⟨1000⟩,
            ⟨[("water_pressure", Value.obj [("pressure", Value.num 2)])],
              [("water_pressure", 300)]⟩⟩, []) :=
  (read_twice_within_ttl .pressure ⟨some ⟨1000⟩, emptyCache⟩
    ⟨some ⟨1000⟩,
      ⟨[("water_pressure", Value.obj [("pressure", Value.num 2)])],
        [("water_pressure", 300)]⟩⟩
    ⟨500, 900, [⟨[], [], Value.num 2, Value.null⟩], true, "", true, ""⟩
    0 10 (Value.obj [("pressure", Value.num 2)])
    (Value.obj [("pressure", Value.num 2)]) [VendorCall.getSystems] 300
    rfl rfl rfl rfl (by norm_num) (by norm_num)).2

/-- C3 counterexample: a system whose reflective serialization is the empty
object {} is cached by the first get_system_info call (entry fresh until 300),
yet the second call at time 10, well inside the TTL window, issues a vendor
call again: the source tests the cached value for truthiness, not presence,
so the falsy cached {} is re-fetched, contradicting both "the second call
issues no vendor call" and "exactly one vendor call across the two calls". -/
theorem read_twice_refetch_counterexample :
    (runRead .sysInfo
        ((runRead .sysInfo ⟨some ⟨1000⟩, emptyCache⟩
            ⟨500, 900, [⟨[], [], Value.null, Value.obj []⟩], true, "", true, ""⟩
            0).2.1)
        ⟨500, 900, [⟨[], [], Value.null, Value.obj []⟩], true, "", true, ""⟩
        10).2.2
      = [VendorCall.getSystems]
    ∧ lookupA ((runRead .sysInfo ⟨some ⟨1000⟩, emptyCache⟩
        ⟨500, 900, [⟨[], [], Value.null, Value.obj []⟩], true, "", true, ""⟩
        0).2.1).cache.CACHE_TTL "system_info" = some 300 :=
  ⟨rfl, rfl⟩

/-- C1 (amended): with a zone index in range and a mode string whose
lowercase form is not manual, off or time_controlled, update_zone_mode
returns the Invalid-mode error dict and issues no mutating vendor call; it
does, however, contact the vendor first: ensure_authenticated may log in or
refresh, and the system list is always fetched before the mode is validated. -/
theorem update_zone_mode_invalid (st : ClientState) (v : Vendor) (now : Time)
    (i : Int) (mode : String) (z : Zone)
    (hz : findZone v.systems i = some z)
    (hm : mode_map (strLower mode) = none) :
    (update_zone_mode i mode st v now).1 = .ok invalidModeV
    ∧ (∀ c ∈ (update_zone_mode i mode st v now).2.2, c.isMutating = false)
    ∧ VendorCall.getSystems ∈ (update_zone_mode i mode st v now).2.2 := by
  unfold update_zone_mode
  simp only [hz, hm]
  refine ⟨trivial, ?_, by simp⟩
  intro c hc
  simp only [List.mem_append] at hc
  rcases hc with h | h
  · rcases ensure_authenticated_calls st v now c h with h1 | h1 <;> rw [h1] <;> rfl
  · simp only [List.mem_singleton] at h
    rw [h]
    rfl

theorem update_zone_mode_invalid_witness :
    (update_zone_mode 0 "BOGUS" ⟨some ⟨1000⟩, emptyCache⟩
        ⟨500, 900,
          [⟨[⟨"Living", Value.null, Value.null, Value.null, Value.null, 0, "s1"⟩],
            [], Value.null, Value.null⟩], true, "", true, ""⟩ 0).1
      = .ok invalidModeV
    ∧ VendorCall.getSystems ∈ (update_zone_mode 0 "BOGUS" ⟨some ⟨1000⟩, emptyCache⟩
        ⟨500, 900,
          [⟨[⟨"Living", Value.null, Value.null, Value.null, Value.null, 0, "s1"⟩],
            [], Value.null, Value.null⟩], true, "", true, ""⟩ 0).2.2 := by
  have h := update_zone_mode_invalid ⟨some ⟨1000⟩, emptyCache⟩
    ⟨500, 900,
      [⟨[⟨"Living", Value.null, Value.null, Value.null, Value.null, 0, "s1"⟩],
        [], Value.null, Value.null⟩], true, "", true, ""⟩ 0 0 "BOGUS"
    ⟨"Living", Value.null, Value.null, Value.null, Value.null, 0, "s1"⟩ rfl rfl
  exact ⟨h.1, h.2.2⟩

/-- C1 counterexample: with a valid session, one system and one zone,
update_zone_mode(0, "bogus") returns the Invalid-mode error but its vendor
call log is the nonempty [getSystems]: the system list is fetched from the
vendor before the mode string is validated, so the claimed "no vendor network
call of any kind" is false. -/
theorem update_zone_mode_invalid_contacts_vendor :
    (update_zone_mode 0 "bogus" ⟨some ⟨1000⟩, emptyCache⟩
        ⟨500, 900,
          [⟨[⟨"Living", Value.null, Value.null, Value.null, Value.null, 0, "s1"⟩],
            [], Value.null, Value.null⟩], true, "", true, ""⟩ 0).1
      = .ok invalidModeV
    ∧ (update_zone_mode 0 "bogus" ⟨some ⟨1000⟩, emptyCache⟩
        ⟨500, 900,
          [⟨[⟨"Living", Value.null, Value.null, Value.null, Value.null, 0, "s1"⟩],
            [], Value.null, Value.null⟩], true, "", true, ""⟩ 0).2.2
      = [VendorCall.getSystems]
    ∧ [VendorCall.getSystems] ≠ ([] : List VendorCall) :=
  ⟨rfl, rfl, by decide⟩

theorem auth_getSystems_not_mutating (st : ClientState) (v : Vendor) (now : Time) :
    ∀ c ∈ (ensure_authenticated st v now).2 ++ [VendorCall.getSystems],
      c.isMutating = false := by
  intro c hc
  simp only [List.mem_append] at hc
  rcases hc with h | h
  · rcases ensure_authenticated_calls st v now c h with h1 | h1 <;> rw [h1] <;> rfl
  · simp only [List.mem_singleton] at h
    rw [h]
    rfl

/-- C5 (amended): when no traversed system has the index in range, the two
update operations and, provided their cache key misses, the two
bounds-checked read operations all return the Zone-not-found error dict and
issue no mutating vendor call. For the cached reads the cache-miss proviso
is necessary: a fresh truthy cached entry recorded under an earlier, longer
zone list is returned before any bounds check happens. -/
theorem out_of_range_zone_not_found (st : ClientState) (v : Vendor)
    (now : Time) (i : Int) (mode : String) (temp : ℚ)
    (hz : findZone v.systems i = none) :
    ((update_zone_mode i mode st v now).1 = .ok zoneNotFoundV
      ∧ ∀ c ∈ (update_zone_mode i mode st v now).2.2, c.isMutating = false)
    ∧ ((update_zone_temperature i temp st v now).1 = .ok zoneNotFoundV
      ∧ ∀ c ∈ (update_zone_temperature i temp st v now).2.2, c.isMutating = false)
    ∧ (cacheMissB st.cache ("zone_info_" ++ toString i) now = true →
        (get_zone_info i st v now).1 = .ok zoneNotFoundV
        ∧ ∀ c ∈ (get_zone_info i st v now).2.2, c.isMutating = false)
    ∧ (cacheMissB st.cache ("zone_flow_temp_" ++ toString i) now = true →
        (get_zone_flow_temperature i st v now).1 = .ok zoneNotFoundV
        ∧ ∀ c ∈ (get_zone_flow_temperature i st v now).2.2,
            c.isMutating = false) := by
  have hmut := auth_getSystems_not_mutating st v now
  have hf3 : fetchZoneInfo i v = .plain zoneNotFoundV [VendorCall.getSystems] := by
    simp only [fetchZoneInfo, hz]
  have hf4 : fetchFlow i v = .plain zoneNotFoundV [VendorCall.getSystems] := by
    simp only [fetchFlow, hz]
  have h1 : update_zone_mode i mode st v now
      = (.ok zoneNotFoundV, (ensure_authenticated st v now).1,
          (ensure_authenticated st v now).2 ++ [VendorCall.getSystems]) := by
    unfold update_zone_mode
    simp only [hz]
  have h2 : update_zone_temperature i temp st v now
      = (.ok zoneNotFoundV, (ensure_authenticated st v now).1,
          (ensure_authenticated st v now).2 ++ [VendorCall.getSystems]) := by
    unfold update_zone_temperature
    simp only [hz]
  refine ⟨⟨?_, ?_⟩, ⟨?_, ?_⟩, fun hm1 => ?_, fun hm2 => ?_⟩
  · rw [h1]
  · rw [h1]
    exact hmut
  · rw [h2]
  · rw [h2]
    exact hmut
  · have h3 := cachedFetch_miss_plain ("zone_info_" ++ toString i)
      (CACHE_TIMES "zone_info") (fetchZoneInfo i) st v now zoneNotFoundV
      [VendorCall.getSystems] hm1 hf3
    refine ⟨?_, ?_⟩
    · unfold get_zone_info
      rw [h3]
    · unfold get_zone_info
      rw [h3]
      exact hmut
  · have h4 := cachedFetch_miss_plain ("zone_flow_temp_" ++ toString i)
      (CACHE_TIMES "zone_flow_temp") (fetchFlow i) st v now zoneNotFoundV
      [VendorCall.getSystems] hm2 hf4
    refine ⟨?_, ?_⟩
    · unfold get_zone_flow_temperature
      rw [h4]
    · unfold get_zone_flow_temperature
      rw [h4]
      exact hmut

theorem out_of_range_zone_not_found_witness :
    (update_zone_temperature 2 21 ⟨some ⟨1000⟩, emptyCache⟩
        ⟨500, 900,
          [⟨[⟨"A", Value.null, Value.null, Value.null, Value.null, 0, "s1"⟩,
             ⟨"B", Value.null, Value.null, Value.null, Value.null, 1, "s1"⟩],
            [], Value.null, Value.null⟩], true, "", true, ""⟩ 0).1
      = .ok zoneNotFoundV
    ∧ (get_zone_info 2 ⟨some ⟨1000⟩, emptyCache⟩
        ⟨500, 900,
          [⟨[⟨"A", Value.null, Value.null, Value.null, Value.null, 0, "s1"⟩,
             ⟨"B", Value.null, Value.null, Value.null, Value.null, 1, "s1"⟩],
            [], Value.null, Value.null⟩], true, "", true, ""⟩ 0).1
      = .ok zoneNotFoundV := by
  have h := out_of_range_zone_not_found ⟨some ⟨1000⟩, emptyCache⟩
    ⟨500, 900,
      [⟨[⟨"A", Value.null, Value.null, Value.null, Value.null, 0, "s1"⟩,
         ⟨"B", Value.null, Value.null, Value.null, Value.null, 1, "s1"⟩],
        [], Value.null, Value.null⟩], true, "", true, ""⟩ 0 2 "manual" 21 rfl
  exact ⟨h.2.1.1, (h.2.2.1 rfl).1⟩

/-- C5 counterexample: the zone list has length 2, so index 2 is out of
range (findZone is none), yet get_zone_info(2) returns a previously cached
zone-info value (entered by set_cache while the zone list was longer) and
not the Zone-not-found error: the cache is consulted before any bounds
check, so the claimed unconditional "zone not found" result is false. -/
theorem get_zone_info_out_of_range_cached_counterexample :
    (get_zone_info 2
        ⟨some ⟨1000⟩,
          set_cache emptyCache "zone_info_2"
            (Value.obj [("name", Value.str "stale")]) 1800 0⟩
        ⟨500, 900,
          [⟨[⟨"A", Value.null, Value.null, Value.null, Value.null, 0, "s1"⟩,
             ⟨"B", Value.null, Value.null, Value.null, Value.null, 1, "s1"⟩],
            [], Value.null, Value.null⟩], true, "", true, ""⟩ 10).1
      = .ok (Value.obj [("name", Value.str "stale")])
    ∧ (Value.obj [("name", Value.str "stale")]).lookupKey "error" = none
    ∧ zoneNotFoundV.lookupKey "error" = some (Value.str "Zone not found")
    ∧ findZone
        [⟨[⟨"A", Value.null, Value.null, Value.null, Value.null, 0, "s1"⟩,
           ⟨"B", Value.null, Value.null, Value.null, Value.null, 1, "s1"⟩],
          [], Value.null, Value.null⟩] 2 = none :=
  ⟨rfl, rfl, rfl, rfl⟩

/-- C7: the two write operations never add, overwrite or remove cache
entries: both cache dicts after update_zone_mode or update_zone_temperature
are identical to those before, on every path (invalid mode, out of range,
vendor success, vendor failure); consequently a get_zone_info whose key
still holds a fresh truthy entry after an update_zone_temperature returns
that pre-update cached value with no vendor call. -/
theorem writes_preserve_cache (st : ClientState) (v : Vendor) (now t2 : Time)
    (i j : Int) (mode : String) (temp : ℚ) :
    (update_zone_mode i mode st v now).2.1.cache = st.cache
    ∧ (update_zone_temperature i temp st v now).2.1.cache = st.cache
    ∧ (∀ w e, lookupA st.cache.CACHE ("zone_info_" ++ toString j) = some w →
        lookupA st.cache.CACHE_TTL ("zone_info_" ++ toString j) = some e →
        t2 < e → w.truthy = true →
        get_zone_info j ((update_zone_temperature i temp st v now).2.1) v t2
          = (.ok w, (update_zone_temperature i temp st v now).2.1, [])) := by
  have hc := ensure_authenticated_cache st v now
  have hmode : (update_zone_mode i mode st v now).2.1.cache = st.cache := by
    unfold update_zone_mode
    dsimp only []
    split
    · split
      · exact hc
      · split <;> exact hc
    · exact hc
  have htemp : (update_zone_temperature i temp st v now).2.1.cache = st.cache := by
    unfold update_zone_temperature
    dsimp only []
    split
    · split <;> exact hc
    · exact hc
  refine ⟨hmode, htemp, fun w e hw he hfresh htru => ?_⟩
  unfold get_zone_info
  exact cachedFetch_hit _ _ _ _ v t2 w e (by rw [htemp]; exact hw)
    (by rw [htemp]; exact he) hfresh htru

theorem writes_preserve_cache_witness :
    get_zone_info 0
        ((update_zone_temperature 0 21 ⟨some ⟨1000⟩,
            set_cache emptyCache "zone_info_0"
              (Value.obj [("name", Value.str "Living")]) 1800 0⟩
          ⟨500, 900,
            [⟨[⟨"Living", Value.null, Value.null, Value.null, Value.null, 0, "s1"⟩],
              [], Value.null, Value.null⟩], true, "", true, ""⟩ 5).2.1)
        ⟨500, 900,
          [⟨[⟨"Living", Value.null, Value.null, Value.null, Value.null, 0, "s1"⟩],
            [], Value.null, Value.null⟩], true, "", true, ""⟩ 10
      = (.ok (Value.obj [("name", Value.str "Living")]),
          (update_zone_temperature 0 21 ⟨some ⟨1000⟩,
            set_cache emptyCache "zone_info_0"
              (Value.obj [("name", Value.str "Living")]) 1800 0⟩
          ⟨500, 900,
            [⟨[⟨"Living", Value.null, Value.null, Value.null, Value.null, 0, "s1"⟩],
              [], Value.null, Value.null⟩], true, "", true, ""⟩ 5).2.1, []) :=
  (writes_preserve_cache ⟨some ⟨1000⟩,
      set_cache emptyCache "zone_info_0"
        (Value.obj [("name", Value.str "Living")]) 1800 0⟩
    ⟨500, 900,
      [⟨[⟨"Living", Value.null, Value.null, Value.null, Value.null, 0, "s1"⟩],
        [], Value.null, Value.null⟩], true, "", true, ""⟩ 5 10 0 0 "manual"
    21).2.2 (Value.obj [("name", Value.str "Living")]) 1800 rfl rfl
    (by norm_num) rfl

/-- Program counter of a request task running ensure_authenticated on the
single asyncio event loop of src/app.py (requests are funneled onto one loop
by run_coroutine_threadsafe). Code between awaits runs atomically; an await
on network IO suspends the task and lets another scheduled task run. -/
inductive TaskPc where
  | start
  | awaiting
  | taskDone
deriving DecidableEq

/-- Shared state of the loop model: the session expiry read and written by
ensure_authenticated, the task list, the number of refresh requests
currently in flight, and the total number issued. -/
structure LoopState where
  expires : Time
  tasks : List TaskPc
  inFlight : Nat
  refreshCalls : Nat

/-- One scheduling step: run the next atomic segment of task i. At start,
the segment evaluates "oauth_session_expires <= now" and, when expired,
issues refresh_token() and suspends at its await (one atomic segment: there
is no await between the check and the request). The awaited segment runs
when the network response arrives: it installs the new expiry and completes
the refresh. -/
def loopStep (now newExpiry : Time) (s : LoopState) (i : Nat) : LoopState :=
  match s.tasks.get? i with
  | some TaskPc.start =>
      if s.expires ≤ now then
        { s with tasks := s.tasks.set i TaskPc.awaiting,
                 inFlight := s.inFlight + 1,
                 refreshCalls := s.refreshCalls + 1 }
      else { s with tasks := s.tasks.set i TaskPc.taskDone }
  | some TaskPc.awaiting =>
      { s with expires := newExpiry,
               tasks := s.tasks.set i TaskPc.taskDone,
               inFlight := s.inFlight - 1 }
  | _ => s

/-- Run the event loop under a given schedule (list of task choices). -/
def runSchedule (now newExpiry : Time) (s : LoopState) : List Nat → LoopState
  | [] => s
  | i :: rest => runSchedule now newExpiry (loopStep now newExpiry s i) rest

/-- C9 counterexample: two tasks that both observe the expired token before
either refresh completes (schedule task 0 then task 1, both at their check
segment) each issue refresh_token(): two refresh requests are simultaneously
in flight and two refresh network calls are made, not exactly one - the
check-then-act of ensure_authenticated spans an await, which the single
event loop does not make atomic. -/
theorem concurrent_refresh_duplicate_counterexample :
    (runSchedule 0 1000 ⟨-1, [TaskPc.start, TaskPc.start], 0, 0⟩
        [0, 1]).inFlight = 2
    ∧ (runSchedule 0 1000 ⟨-1, [TaskPc.start, TaskPc.start], 0, 0⟩
        [0, 1]).refreshCalls = 2 :=
  ⟨rfl, rfl⟩

/-- C9 (amended): the single event loop serializes only atomic segments.
When the first refresh completes before the second task reaches its expiry
check (schedule 0,0,1), the second task sees the renewed token and exactly
one refresh call is made; but when both tasks pass the check before either
refresh completes (schedule 0,1), two refresh calls are issued. Each cache
set is a single state transition updating both dicts together (set_cache
contains no await), so no cache read observes a write in progress. -/
theorem concurrent_refresh_amended :
    (runSchedule 0 1000 ⟨-1, [TaskPc.start, TaskPc.start], 0, 0⟩
        [0, 0, 1]).refreshCalls = 1
    ∧ (runSchedule 0 1000 ⟨-1, [TaskPc.start, TaskPc.start], 0, 0⟩
        [0, 0, 1]).inFlight = 0
    ∧ (runSchedule 0 1000 ⟨-1, [TaskPc.start, TaskPc.start], 0, 0⟩
        [0, 1]).refreshCalls = 2
    ∧ (∀ s key value ttl now,
        (set_cache s key value ttl now).CACHE = insertA s.CACHE key value
        ∧ (set_cache s key value ttl now).CACHE_TTL
            = insertA s.CACHE_TTL key (now + ttl)) :=
  ⟨rfl, rfl, rfl, fun _ _ _ _ _ => ⟨rfl, rfl⟩⟩
